import Mathlib

set_option maxRecDepth 16384

/-!
Verification development for a candidate-generation-and-verification
pipeline (a Bitcoin wallet scanner).  The definitions below are a shallow
embedding of the Python sources: byte strings are `List Nat` (each element
a byte value `< 256`), 32-bit machine words are `Nat` reduced `% 2 ^ 32`
at each arithmetic step, fallible Python code is embedded in `Except`,
and the stateful scanner is embedded as explicit state passing over a
`ScannerState` record.
-/

/-! ## SHA-256 (shallow embedding of `hashlib.sha256` as used by the code)

The scalar CPU hashing path calls `hashlib.sha256`; we embed full SHA-256
(FIPS 180-4) over byte lists.  The word size is 32 bits, modelled as `Nat`
with explicit `% two32` at every additive step; bitwise operations on
32-bit values stay below `2 ^ 32` so no extra reduction is needed there. -/

namespace Sha256

def two32 : Nat := 4294967296

/-- 32-bit rotate right, `ROTRIGHT(word, bits)` for `word < 2 ^ 32`. -/
def rotr (x n : Nat) : Nat := ((x >>> n) ||| (x <<< (32 - n))) % two32

/-- Bitwise complement on 32 bits: `~x` for `x < 2 ^ 32`. -/
def bnot32 (x : Nat) : Nat := x ^^^ 4294967295

def ch (x y z : Nat) : Nat := (x &&& y) ^^^ (bnot32 x &&& z)

def maj (x y z : Nat) : Nat := (x &&& y) ^^^ (x &&& z) ^^^ (y &&& z)

def ep0 (x : Nat) : Nat := rotr x 2 ^^^ rotr x 13 ^^^ rotr x 22

def ep1 (x : Nat) : Nat := rotr x 6 ^^^ rotr x 11 ^^^ rotr x 25

def sig0 (x : Nat) : Nat := rotr x 7 ^^^ rotr x 18 ^^^ (x >>> 3)

def sig1 (x : Nat) : Nat := rotr x 17 ^^^ rotr x 19 ^^^ (x >>> 10)

/-- The 64 standard SHA-256 round constants (FIPS 180-4, used by
`hashlib`), written in decimal: `0x428a2f98` is `1116352408`, and so on
through `0xc67178f2` = `3329325298`. -/
def K : List Nat :=
  [1116352408, 1899447441, 3049323471, 3921009573,
   961987163, 1508970993, 2453635748, 2870763221,
   3624381080, 310598401, 607225278, 1426881987,
   1925078388, 2162078206, 2614888103, 3248222580,
   3835390401, 4022224774, 264347078, 604807628,
   770255983, 1249150122, 1555081692, 1996064986,
   2554220882, 2821834349, 2952996808, 3210313671,
   3336571891, 3584528711, 113926993, 338241895,
   666307205, 773529912, 1294757372, 1396182291,
   1695183700, 1986661051, 2177026350, 2456956037,
   2730485921, 2820302411, 3259730800, 3345764771,
   3516065817, 3600352804, 4094571909, 275423344,
   430227734, 506948616, 659060556, 883997877,
   958139571, 1322822218, 1537002063, 1747873779,
   1955562222, 2024104815, 2227730452, 2361852424,
   2428436474, 2756734187, 3204031479, 3329325298]

/-- SHA-256 initial hash value `h0 … h7` (`0x6a09e667 … 0x5be0cd19`,
in decimal). -/
def IV : List Nat :=
  [1779033703, 3144134277, 1013904242, 2773480762,
   1359893119, 2600822924, 528734635, 1541459225]

/-- Working registers `a … h` of the compression loop. -/
structure Regs where
  a : Nat
  b : Nat
  c : Nat
  d : Nat
  e : Nat
  f : Nat
  g : Nat
  h : Nat
  deriving DecidableEq

/-- One compression round: `t1 = h + EP1(e) + CH(e,f,g) + k + w`,
`t2 = EP0(a) + MAJ(a,b,c)`, then rotate the registers. -/
def roundStep (r : Regs) (kw : Nat × Nat) : Regs :=
  let t1 := (r.h + ep1 r.e + ch r.e r.f r.g + kw.1 + kw.2) % two32
  let t2 := (ep0 r.a + maj r.a r.b r.c) % two32
  { a := (t1 + t2) % two32, b := r.a, c := r.b, d := r.c,
    e := (r.d + t1) % two32, f := r.e, g := r.f, h := r.g }

/-- Load the 16 message words of a 64-byte block, big-endian
(`input[…] << 24 | … << 16 | … << 8 | …`). -/
def wordsOfBlock (block : List Nat) : List Nat :=
  (List.range 16).map fun i =>
    (block.getD (4 * i) 0) <<< 24 ||| (block.getD (4 * i + 1) 0) <<< 16 |||
    (block.getD (4 * i + 2) 0) <<< 8 ||| block.getD (4 * i + 3) 0

/-- Extend the message schedule by `n` further words,
`w[i] = SIG1(w[i-2]) + w[i-7] + SIG0(w[i-15]) + w[i-16]` (mod `2 ^ 32`). -/
def extendSchedule : Nat → List Nat → List Nat
  | 0, w => w
  | n + 1, w =>
    let len := w.length
    extendSchedule n
      (w ++ [(sig1 (w.getD (len - 2) 0) + w.getD (len - 7) 0 +
              sig0 (w.getD (len - 15) 0) + w.getD (len - 16) 0) % two32])

/-- Full 64-word message schedule of a 64-byte block. -/
def schedule (block : List Nat) : List Nat :=
  extendSchedule 48 (wordsOfBlock block)

/-- One SHA-256 compression of `state` (8 words) with a 64-byte `block`,
parameterised by the round-constant table `ks` (the accelerator kernel
uses a different table, see `GPUHasher` below). -/
def compressWith (ks : List Nat) (state block : List Nat) : List Nat :=
  let w := schedule block
  let r0 : Regs :=
    { a := state.getD 0 0, b := state.getD 1 0, c := state.getD 2 0,
      d := state.getD 3 0, e := state.getD 4 0, f := state.getD 5 0,
      g := state.getD 6 0, h := state.getD 7 0 }
  let r := (ks.zip w).foldl roundStep r0
  [(state.getD 0 0 + r.a) % two32, (state.getD 1 0 + r.b) % two32,
   (state.getD 2 0 + r.c) % two32, (state.getD 3 0 + r.d) % two32,
   (state.getD 4 0 + r.e) % two32, (state.getD 5 0 + r.f) % two32,
   (state.getD 6 0 + r.g) % two32, (state.getD 7 0 + r.h) % two32]

/-- Standard SHA-256 compression function. -/
def compress (state block : List Nat) : List Nat :=
  compressWith K state block

/-- `v` as `n` bytes, big-endian. -/
def toBytesBE (n v : Nat) : List Nat :=
  (List.range n).map fun i => (v >>> (8 * (n - 1 - i))) % 256

/-- FIPS 180-4 padding: append `0x80`, zero bytes to 56 mod 64, then the
message bit length as 8 big-endian bytes. -/
def pad (msg : List Nat) : List Nat :=
  let z := (64 - ((msg.length + 9) % 64)) % 64
  msg ++ [128] ++ List.replicate z 0 ++ toBytesBE 8 (msg.length * 8)

/-- Structural worker for `chunksOf`; the fuel argument bounds the number
of chunks (each step consumes at least one element, so the input length
is enough fuel). -/
def chunksOfAux (k : Nat) : Nat → List α → List (List α)
  | 0, _ => []
  | _, [] => []
  | fuel + 1, x :: xs =>
    (x :: xs).take (k + 1) :: chunksOfAux k fuel ((x :: xs).drop (k + 1))

/-- Split a list into chunks of `k + 1` elements;
`chunksOf 63` yields the 64-byte blocks of a padded message. -/
def chunksOf (k : Nat) (l : List α) : List (List α) :=
  chunksOfAux k l.length l

/-- SHA-256 digest of a byte string, as 32 bytes. -/
def sha256 (msg : List Nat) : List Nat :=
  (((chunksOf 63 (pad msg)).foldl compress IV).map (toBytesBE 4)).flatten

end Sha256

/-! ## GPUHasher (shallow embedding of the `sha256_batch` OpenCL kernel)

`GPUHasher.compute_hash_batch` zero-pads every payload to `input_length`
(default 64) bytes and runs the `sha256_batch` kernel once per payload.
The kernel reads exactly 16 big-endian words (64 bytes) per work item,
runs the 64-round compression from the standard initial state, and writes
the eight words `h0 + a … h7 + h`.  It performs NO message padding, NO
length encoding and NO second hash pass, and its `k[64]` constant table
is written with only 62 initialisers (the standard constants with
`0xd807aa98` and `0x12835b01` missing), so OpenCL C zero-fills `k[62]`
and `k[63]`.  The digest words are serialised big-endian here, the
reading most favourable to matching the CPU path. -/

namespace GPUHasher

/-- The kernel's constant table exactly as written in the source: 62
values (the standard table minus `0xd807aa98` = `3624381080` and
`0x12835b01` = `310598401`), zero-filled to 64 entries as C aggregate
initialisation prescribes; in decimal, starting `0x428a2f98` =
`1116352408`. -/
def KERNEL_K : List Nat :=
  [1116352408, 1899447441, 3049323471, 3921009573,
   961987163, 1508970993, 2453635748, 2870763221,
   607225278, 1426881987, 1925078388, 2162078206,
   2614888103, 3248222580, 3835390401, 4022224774,
   264347078, 604807628, 770255983, 1249150122,
   1555081692, 1996064986, 2554220882, 2821834349,
   2952996808, 3210313671, 3336571891, 3584528711,
   113926993, 338241895, 666307205, 773529912,
   1294757372, 1396182291, 1695183700, 1986661051,
   2177026350, 2456956037, 2730485921, 2820302411,
   3259730800, 3345764771, 3516065817, 3600352804,
   4094571909, 275423344, 430227734, 506948616,
   659060556, 883997877, 958139571, 1322822218,
   1537002063, 1747873779, 1955562222, 2024104815,
   2227730452, 2361852424, 2428436474, 2756734187,
   3204031479, 3329325298, 0, 0]

/-- Digest of one payload through the `sha256_batch` kernel: the payload
is zero-padded to 64 bytes (`input_buffer[i, :len(data)] = data` over a
zero buffer), compressed once with the kernel's constant table, and the
eight output words serialised as 32 bytes. -/
def sha256_batch_digest (payload : List Nat) : List Nat :=
  let block := (payload ++ List.replicate 64 0).take 64
  ((Sha256.compressWith KERNEL_K Sha256.IV block).map (Sha256.toBytesBE 4)).flatten

/-- `compute_hash_batch`: one digest per payload, in order. -/
def compute_hash_batch (data_batch : List (List Nat)) : List (List Nat) :=
  data_batch.map sha256_batch_digest

end GPUHasher

/-! ## BitcoinUtils: checksum and base58 address encoding -/

namespace BitcoinUtils

/-- `generate_checksum`: first 4 bytes of `sha256(sha256(payload))`. -/
def generate_checksum (payload : List Nat) : List Nat :=
  (Sha256.sha256 (Sha256.sha256 payload)).take 4

/-- The Bitcoin base58 alphabet used by the `base58` package (excludes
`0`, `O`, `I`, `l`). -/
def B58_ALPHABET : List Char :=
  "123456789ABCDEFGHJKLMNPQRSTUVWXYZabcdefghijkmnopqrstuvwxyz".toList

/-- Big-endian bytes to the integer they denote. -/
def bytesToNat (bs : List Nat) : Nat :=
  bs.foldl (fun a b => a * 256 + b) 0

/-- Base-58 digits of `n`, most significant first.  The fuel argument
makes the recursion structural; `n` itself is enough fuel because the
digit count of `n` never exceeds `n`. -/
def b58digitsAux : Nat → Nat → List Nat
  | 0, _ => []
  | _, 0 => []
  | fuel + 1, n => b58digitsAux fuel (n / 58) ++ [n % 58]

def b58digits (n : Nat) : List Nat :=
  b58digitsAux n n

/-- Number of leading zero bytes, each encoded as `'1'` by base58. -/
def countLeadingZeros : List Nat → Nat
  | [] => 0
  | b :: rest => if b = 0 then countLeadingZeros rest + 1 else 0

/-- `base58.b58encode` of a byte string, decoded to a string. -/
def b58encode (bs : List Nat) : String :=
  String.mk (List.replicate (countLeadingZeros bs) '1' ++
    (b58digits (bytesToNat bs)).map fun d => B58_ALPHABET.getD d '1')

/-- `base58_encode_with_checksum`, exactly as the source computes it:
`combined = version + payload`, `checksum = generate_checksum(combined)`,
and the base58 encoding of `combined + checksum`. -/
def base58_encode_with_checksum (version payload : List Nat) : String :=
  let combined := version ++ payload
  let checksum := generate_checksum combined
  let final := combined ++ checksum
  b58encode final

end BitcoinUtils

/-- Modelled from the spec's words for the refinement claim C2: the
base58 encoding of `versionByte‖payload‖checksum` where the checksum is
exactly the first 4 bytes of `SHA256(SHA256(versionByte‖payload))`. -/
def addressSpec (version payload : List Nat) : String :=
  BitcoinUtils.b58encode
    (version ++ payload ++
      (Sha256.sha256 (Sha256.sha256 (version ++ payload))).take 4)

/-! ## WalletGenerator (BIP39 seed phrase generation) -/

namespace WalletGenerator

/-- The source's `BIP39_WORDS` list: only the first 20 words of the
BIP39 wordlist (its own comment notes a real implementation needs all
2048). -/
def BIP39_WORDS : List String :=
  ["abandon", "ability", "able", "about", "above",
   "absent", "absorb", "abstract", "absurd", "abuse",
   "access", "accident", "account", "accuse", "achieve",
   "acid", "acoustic", "acquire", "across", "act"]

/-- Bits of a byte string, most significant bit of each byte first: the
embedding of `bin(int.from_bytes(entropy, 'big'))[2:].zfill(len * 8)`. -/
def bytesToBits (bs : List Nat) : List Bool :=
  bs.flatMap fun b => (List.range 8).map fun i => b.testBit (7 - i)

/-- Big-endian bit string to the number it denotes (`int(s, 2)`). -/
def bitsToNat (bits : List Bool) : Nat :=
  bits.foldl (fun a b => 2 * a + (if b then 1 else 0)) 0

/-- `entropy_to_words`: entropy bits plus the first `len*8/32` bits of
`sha256(entropy)` are cut into 11-bit segments; each segment indexes
`BIP39_WORDS`.  An out-of-range index is Python's `IndexError`, embedded
as `none`. -/
def entropy_to_words (entropy : List Nat) : Option (List String) :=
  let binary := bytesToBits entropy
  let checksum := (bytesToBits (Sha256.sha256 entropy)).take (entropy.length * 8 / 32)
  let binary_with_checksum := binary ++ checksum
  (Sha256.chunksOf 10 binary_with_checksum).mapM fun seg =>
    BIP39_WORDS.get? (bitsToNat seg)

/-- `generate_seed_phrase` draws `(word_count * 11) - (word_count / 3)`
bits of entropy (16 bytes for 12 words) and converts them to words; the
random entropy is a parameter here.  The claim C10 input condition is
exactly `entropy.length = entropy_bits word_count / 8`. -/
def entropy_bits (word_count : Nat) : Nat :=
  word_count * 11 - word_count / 3

def generate_seed_phrase (_word_count : Nat) (entropy : List Nat) :
    Option (List String × List Nat) :=
  (entropy_to_words entropy).map fun words => (words, entropy)

end WalletGenerator

/-! ## WalletScanner (shallow embedding of the scanning pipeline)

The scanner's mutable object state becomes explicit state passing over
`ScannerState`.  The external oracle (`BitcoinUtils.verify_live_node`,
`get_node_info`, `verify_wallet`) is a record of `Except`-valued
operations; a Python exception is `Except.error`.  Wall-clock rate
sampling, logging and file persistence are not modelled (none of the
claims mentions them); threading is modelled by making each worker-loop
iteration an explicit step on the shared state, which is the claims'
"observation point after a full aggregation cycle". -/

/-- Errors surfaced by the embedded Python code. -/
inductive ScanError where
  | keyError (key : String)
  | connectivity (msg : String)
  | valueError (msg : String)
  deriving DecidableEq

/-- Result of `get_node_info`. -/
structure NodeInfo where
  chain : String
  blocks : Nat
  peers : Nat
  deriving DecidableEq

/-- The external balance oracle as consumed by the scanner. -/
structure Oracle where
  verifyLiveNode : Except ScanError Unit
  getNodeInfo : Except ScanError NodeInfo
  verifyWallet : String → Except ScanError Rat

/-- One generated candidate: the dict built by `_wallet_generator_worker`
has keys `seed_phrase`, `entropy` and `timestamp` — and, crucially, no
`address` key, so `address` is an `Option` that the generator leaves
`none`. -/
structure Candidate where
  seed_phrase : String
  entropy : List Nat
  timestamp : String
  address : Option String
  deriving DecidableEq

/-- A verified hit as assembled by `_process_batch` (`wallet_data.update`
with balance, network and block height; the wall-clock `found_at` string
is not modelled). -/
structure Hit where
  candidate : Candidate
  balance : Rat
  network : String
  block_height : Nat
  deriving DecidableEq

/-- Host platform, deciding `os.name == 'nt'` branches. -/
inductive OsKind where
  | windows
  | posix
  deriving DecidableEq

namespace WalletScanner

def CPU_BATCH_SIZE : Nat := 1000

def GPU_BATCH_SIZE : Nat := 10000

/-- `Queue(maxsize=1000)` capacity of `wallet_queue`, counted in batches. -/
def queue_maxsize : Nat := 1000

/-- The scanner state touched by the claims: the cooperative `scanning`
flag, configuration, the shared counters and the bounded batch queue,
plus the worker-set bookkeeping of the last `start_scan`.  The shared
counters are `multiprocessing.Value('i')` — 32-bit ctypes `c_int`s that
wrap silently on overflow — modelled as the stored 32-bit pattern, a
`Nat` kept `< 2 ^ 32` by reducing every increment `% 4294967296`
(`c_int_signed` below gives the signed value a `.value` read presents). -/
structure ScannerState where
  scanning : Bool
  simulation_mode : Bool
  cpu_thread_count : Nat
  gpu_thread_count : Nat
  cpu_enabled : Bool
  gpu_enabled : Bool
  gpu_hasher : Bool
  shared_total : Nat
  shared_balance_count : Nat
  cpu_processed : Nat
  gpu_processed : Nat
  wallet_queue : List (List Candidate)
  generator_workers : Nat
  scan_workers : Nat
  gpu_workers : Nat
  deriving DecidableEq

/-- `__init__`: counters zero, queue empty, scanning off, GPU disabled by
default, `cpu_thread_count = max(cpu_count // 2, 1)`. -/
def initial_state (cpuCount : Nat) : ScannerState :=
  { scanning := false
    simulation_mode := false
    cpu_thread_count := max (cpuCount / 2) 1
    gpu_thread_count := 256
    cpu_enabled := true
    gpu_enabled := false
    gpu_hasher := false
    shared_total := 0
    shared_balance_count := 0
    cpu_processed := 0
    gpu_processed := 0
    wallet_queue := []
    generator_workers := 0
    scan_workers := 0
    gpu_workers := 0 }

/-- `stop_scan`: flips `scanning` off (and tears down the pools, not
modelled); a no-op when already stopped. -/
def stop_scan (st : ScannerState) : ScannerState :=
  if st.scanning then { st with scanning := false } else st

/-- `_reset_statistics`: zero all shared counters. -/
def reset_statistics (st : ScannerState) : ScannerState :=
  { st with shared_total := 0, shared_balance_count := 0,
            cpu_processed := 0, gpu_processed := 0 }

/-- `_set_process_priority`: on Windows it only adjusts priority and
affinity; on POSIX it RE-ASSIGNS `cpu_thread_count = max(cpu_count // 4, 1)`
(both in the normal path and in its exception handler). -/
def set_process_priority (os : OsKind) (cpuCount : Nat)
    (st : ScannerState) : ScannerState :=
  match os with
  | .windows => st
  | .posix => { st with cpu_thread_count := max (cpuCount / 4) 1 }

/-- Worker count of the thread pool in `start_scan`:
`cpu_thread_count * 2 if os.name == 'nt' else cpu_thread_count`. -/
def executor_worker_count (os : OsKind) (n : Nat) : Nat :=
  match os with
  | .windows => n * 2
  | .posix => n

/-- `start_scan` (the synchronous meaning of its `init_scanner` thread):
a no-op while already scanning; `nodeOk` is the outcome of
`BitcoinUtils.verify_live_node()` during initialisation — on failure the
handler calls `stop_scan` (a no-op here, the session never started) and
no workers spawn.  On success: `scanning = True`, statistics reset,
process priority set (which on POSIX overrides `cpu_thread_count`), then
one generator worker, `executor_worker_count` scan workers and one GPU
worker (if enabled and a hasher exists) are submitted. -/
def start_scan (os : OsKind) (cpuCount : Nat) (nodeOk : Bool)
    (simulation_mode : Bool) (st : ScannerState) : ScannerState :=
  if st.scanning then st
  else
    let st0 := { st with simulation_mode := simulation_mode }
    if !simulation_mode && !nodeOk then stop_scan st0
    else
      let st1 := reset_statistics { st0 with scanning := true }
      let st2 := set_process_priority os cpuCount st1
      let ew := executor_worker_count os st2.cpu_thread_count
      { st2 with generator_workers := 1, scan_workers := ew,
                 gpu_workers := if st2.gpu_enabled && st2.gpu_hasher then 1 else 0 }

/-- `verify_wallet` on the scanner: simulated balance from the address
hash, or the live oracle. -/
def simulated_balance (addr_hash : Nat) : Rat :=
  if addr_hash % 10000000 = 0 then ((addr_hash % 100 : Nat) : Rat) / 100000 else 0

def string_bytes (s : String) : List Nat :=
  s.toUTF8.toList.map fun b => b.toNat

def verify_wallet (oracle : Oracle) (simulation_mode : Bool)
    (address : String) : Except ScanError Rat :=
  if simulation_mode then
    .ok (simulated_balance (BitcoinUtils.bytesToNat (Sha256.sha256 (string_bytes address))))
  else oracle.verifyWallet address

/-- `get_node_info` on the scanner: a fixed simulated record, or the
oracle. -/
def get_node_info (oracle : Oracle) (simulation_mode : Bool) :
    Except ScanError NodeInfo :=
  if simulation_mode then .ok { chain := "simulated", blocks := 0, peers := 0 }
  else oracle.getNodeInfo

/-- The list comprehension
`[wallet_data['address'] for wallet_data in batch]`: Python raises
`KeyError('address')` at the first candidate without that key. -/
def extract_addresses : List Candidate → Except ScanError (List String)
  | [] => .ok []
  | c :: rest =>
    match c.address with
    | none => .error (.keyError "address")
    | some a =>
      match extract_addresses rest with
      | .error e => .error e
      | .ok as_ => .ok (a :: as_)

/-- The per-candidate loop of `_process_batch`: look up the address
(`KeyError` if missing), verify it, and collect a `Hit` when the balance
is positive; the inner handler re-raises, so the first error aborts the
whole batch. -/
def verify_batch_loop (oracle : Oracle) (simulation_mode : Bool)
    (info : NodeInfo) : List Candidate → Except ScanError (List Hit)
  | [] => .ok []
  | c :: rest =>
    match c.address with
    | none => .error (.keyError "address")
    | some a =>
      match verify_wallet oracle simulation_mode a with
      | .error e => .error e
      | .ok balance =>
        match verify_batch_loop oracle simulation_mode info rest with
        | .error e => .error e
        | .ok hits =>
          .ok (if 0 < balance then
                { candidate := c, balance := balance, network := info.chain,
                  block_height := info.blocks } :: hits
               else hits)

/-- The protected body of `_process_batch`: verify the live node (skipped
in simulation mode), fetch node info, extract all addresses, then verify
each candidate. -/
def process_batch_core (oracle : Oracle) (simulation_mode : Bool)
    (batch : List Candidate) : Except ScanError (List Hit) :=
  match (if simulation_mode then Except.ok () else oracle.verifyLiveNode) with
  | .error e => .error e
  | .ok _ =>
    match get_node_info oracle simulation_mode with
    | .error e => .error e
    | .ok info =>
      match extract_addresses batch with
      | .error e => .error e
      | .ok _ => verify_batch_loop oracle simulation_mode info batch

/-- `_process_batch`: on any failure of the body the outer handler calls
`stop_scan` and re-raises; on success the state is untouched. -/
def process_batch (st : ScannerState) (oracle : Oracle)
    (batch : List Candidate) : ScannerState × Except ScanError (List Hit) :=
  match process_batch_core oracle st.simulation_mode batch with
  | .error e => (stop_scan st, .error e)
  | .ok hits => (st, .ok hits)

/-- `_process_batch_cpu` simply delegates to `_process_batch`. -/
def process_batch_cpu (st : ScannerState) (oracle : Oracle)
    (batch : List Candidate) : ScannerState × Except ScanError (List Hit) :=
  process_batch st oracle batch

/-- `_process_batch_gpu` simply delegates to `_process_batch`; the
accelerator (`GPUHasher.compute_hash_batch`) is never consulted. -/
def process_batch_gpu (st : ScannerState) (oracle : Oracle)
    (batch : List Candidate) : ScannerState × Except ScanError (List Hit) :=
  process_batch st oracle batch

/-- One iteration of `_scan_worker` on a dequeued batch: process the
first `CPU_BATCH_SIZE` candidates; on success add the FULL batch length
to `cpu_processed` and `shared_total` and the hit count to
`shared_balance_count`, each stored as a ctypes `c_int` does — the lower
32 bits, silently wrapped; a raised exception is logged and the loop
continues with no counter update. -/
def scan_worker_step (st : ScannerState) (oracle : Oracle)
    (batch : List Candidate) : ScannerState × List Hit :=
  match process_batch_cpu st oracle (batch.take CPU_BATCH_SIZE) with
  | (st1, .error _) => (st1, [])
  | (st1, .ok results) =>
    ({ st1 with
        cpu_processed := (st1.cpu_processed + batch.length) % 4294967296,
        shared_total := (st1.shared_total + batch.length) % 4294967296,
        shared_balance_count :=
          (st1.shared_balance_count + results.length) % 4294967296 },
     results)

/-- One iteration of `_gpu_scan_worker` on a dequeued batch: the whole
batch goes through `_process_batch_gpu`; on success the batch length is
added to `gpu_processed` and `shared_total` (wrapped `c_int` stores, as
in `scan_worker_step`). -/
def gpu_scan_worker_step (st : ScannerState) (oracle : Oracle)
    (batch : List Candidate) : ScannerState × List Hit :=
  match process_batch_gpu st oracle batch with
  | (st1, .error _) => (st1, [])
  | (st1, .ok results) =>
    ({ st1 with
        gpu_processed := (st1.gpu_processed + batch.length) % 4294967296,
        shared_total := (st1.shared_total + batch.length) % 4294967296,
        shared_balance_count :=
          (st1.shared_balance_count + results.length) % 4294967296 },
     results)

/-- One iteration of `_wallet_generator_worker`: if queue occupancy is
below 70% of capacity, synthesize `min(GPU_BATCH_SIZE, maxsize - qsize)`
candidates and enqueue them as one batch (if nonempty); otherwise sleep
briefly and re-check (a state-preserving step here).  The loop guard is
`while self.scanning`. -/
def generator_step (mk : Nat → Candidate) (st : ScannerState) : ScannerState :=
  if !st.scanning then st
  else if st.wallet_queue.length * 10 < queue_maxsize * 7 then
    let local_batch_size := min GPU_BATCH_SIZE (queue_maxsize - st.wallet_queue.length)
    let local_batch := (List.range local_batch_size).map mk
    if local_batch.isEmpty then st
    else { st with wallet_queue := st.wallet_queue ++ [local_batch] }
  else st

/-- Outcome of a Python method call made under the scanner's
non-reentrant `threading.Lock` (`self._lock`): the call returns with a
resulting state, raises with the state as it was, or blocks forever on a
re-acquisition of the lock it already holds (deadlock) — in that last
case the mutations performed before the blocking acquire stay visible
to other threads. -/
inductive LockedCall where
  | returned (st : ScannerState)
  | raised (st : ScannerState) (e : ScanError)
  | deadlocked (st : ScannerState)
  deriving DecidableEq

/-- `set_thread_count`: counts below 1 are rejected with `ValueError`
before the lock is taken and before anything changes.  Otherwise the
caller acquires the non-reentrant `self._lock`, clamps
`cpu_thread_count` to the machine's CPU count and adjusts the GPU
thread count when a hasher is active; if the session is running it then
calls `self.stop_scan()` — whose first statement re-acquires the very
same `self._lock` — so the thread blocks forever: the resize DEADLOCKS
with the new thread counts already visible, `scanning` still true, and
the worker set untouched.  The `_os` and `_nodeOk` parameters belong to
the `start_scan()` restart that is never reached. -/
def set_thread_count (_os : OsKind) (cpuCount : Nat) (_nodeOk : Bool)
    (st : ScannerState) (count : Int) : LockedCall :=
  if count < 1 then
    .raised st (.valueError "Thread count must be at least 1")
  else
    let st1 := { st with cpu_thread_count := min count.toNat cpuCount }
    let st2 :=
      if st1.gpu_enabled && st1.gpu_hasher then
        { st1 with gpu_thread_count := min (count.toNat * 64) 1024 }
      else st1
    if st2.scanning then .deadlocked st2
    else .returned st2

end WalletScanner

/-! ## Operation alphabets and concrete example data -/

namespace WalletScanner

/-- The golden-vector payload of §8 of the specification: version byte
`0x00` followed by the first 20 bytes of a 32-zero-byte entropy. -/
def goldenPayload : List Nat := 0 :: List.replicate 20 0

/-- A candidate exactly as `_wallet_generator_worker` builds it: keys
`seed_phrase`, `entropy`, `timestamp` and NO address. -/
def genCandidate : Candidate :=
  { seed_phrase := "abandon abandon abandon"
    entropy := List.replicate 16 0
    timestamp := "2024-01-01 00:00:00"
    address := none }

/-- A candidate that additionally carries a derived address, as the
specification intends candidates to reach the verifier. -/
def addrCandidate : Candidate :=
  { genCandidate with address := some "1BvBMSEYstWetqTFn5Au4m4GFg7xJaNVN2" }

def mainNetInfo : NodeInfo :=
  { chain := "main", blocks := 100, peers := 8 }

/-- An oracle that is reachable and reports a zero balance everywhere. -/
def stubOracle : Oracle :=
  { verifyLiveNode := .ok ()
    getNodeInfo := .ok mainNetInfo
    verifyWallet := fun _ => .ok 0 }

/-- An oracle whose wallet verification always raises a connectivity
error (the node test calls still succeed). -/
def downOracle : Oracle :=
  { verifyLiveNode := .ok ()
    getNodeInfo := .ok mainNetInfo
    verifyWallet := fun _ => .error (.connectivity "node unreachable") }

/-- A freshly started scanner (live mode, 4-CPU machine). -/
def runningState : ScannerState :=
  { initial_state 4 with scanning := true }

/-- The §8 resize scenario: a session actually started (via `start_scan`
on a 16-CPU POSIX host, where the priority setup pins the thread count
to `16 / 4 = 4`), running with 4 CPU threads and 4 CPU scan workers. -/
def resizeExampleState : ScannerState :=
  start_scan .posix 16 true false (initial_state 16)

/-- The signed value a ctypes `c_int` presents (`.value`) for a stored
32-bit pattern `x < 2 ^ 32`. -/
def c_int_signed (x : Nat) : Int :=
  if x < 2147483648 then (x : Int) else (x : Int) - 4294967296

/-- A full-size CPU batch of address-carrying candidates. -/
def bigBatch : List Candidate := List.replicate 1000 addrCandidate

/-- Enough 1000-candidate batches per device for the two `c_int` reads
of the processed counters to sum past `2 ^ 31`. -/
def wrapBatches : Nat := 1073742

/-- Operations on the candidate queue: one generator iteration, or one
worker dequeue (`wallet_queue.get`). -/
inductive QueueOp where
  | genStep (mk : Nat → Candidate)
  | dequeueBatch

def queue_op_apply (st : ScannerState) : QueueOp → ScannerState
  | .genStep mk => generator_step mk st
  | .dequeueBatch => { st with wallet_queue := st.wallet_queue.tail }

/-- The operations that touch the shared counters: a CPU worker
completing a dequeued batch, the GPU worker completing one, `stop_scan`,
and `_reset_statistics`. -/
inductive ScanOp where
  | cpuStep (oracle : Oracle) (batch : List Candidate)
  | gpuStep (oracle : Oracle) (batch : List Candidate)
  | stop
  | reset

def scan_op_apply (st : ScannerState) : ScanOp → ScannerState
  | .cpuStep oracle batch => (scan_worker_step st oracle batch).1
  | .gpuStep oracle batch => (gpu_scan_worker_step st oracle batch).1
  | .stop => stop_scan st
  | .reset => reset_statistics st

/-- The §3 counter invariant as the wrapped 32-bit stores satisfy it:
the total's store is congruent, modulo `2 ^ 32`, to the sum of the
per-device stores (the source's plain equation
`shared_total == cpu_processed + gpu_processed` over signed `.value`
reads additionally needs that no effective wrap has occurred — see the
C4 counterexample). -/
def counter_inv (st : ScannerState) : Prop :=
  st.shared_total = (st.cpu_processed + st.gpu_processed) % 4294967296

/-- A session history long enough to wrap `shared_total`'s 32-bit store:
`wrapBatches` completed CPU batches followed by as many GPU batches. -/
def wrapOps : List ScanOp :=
  List.replicate wrapBatches (ScanOp.cpuStep stubOracle bigBatch) ++
  List.replicate wrapBatches (ScanOp.gpuStep stubOracle bigBatch)

end WalletScanner

/-! ## Theorems -/

/-- Validation of the embedding against the standard test vector:
`SHA256("")`. -/
theorem sha256_empty_vector :
    Sha256.sha256 [] =
      [227, 176, 196, 66, 152, 252, 28, 20, 154, 251, 244, 200, 153, 111,
       185, 36, 39, 174, 65, 228, 100, 155, 147, 76, 164, 149, 153, 27,
       120, 82, 184, 85] := by decide

/-- Validation of the embedding against the standard test vector:
`SHA256("abc")` (bytes `[97, 98, 99]`). -/
theorem sha256_abc_vector :
    Sha256.sha256 [97, 98, 99] =
      [186, 120, 22, 191, 143, 1, 207, 234, 65, 65, 64, 222, 93, 174, 34,
       35, 176, 3, 97, 163, 150, 23, 122, 156, 180, 16, 255, 97, 242, 0,
       21, 173] := by decide

/-- Validation of the BIP39 bit plumbing: the all-zero 16-byte entropy
stays inside the truncated wordlist (all entropy segments are 0 and the
checksum segment is 3), so `entropy_to_words` succeeds on it. -/
theorem entropy_to_words_zero_entropy :
    WalletGenerator.entropy_to_words (List.replicate 16 0) =
      some ["abandon", "abandon", "abandon", "abandon", "abandon",
            "abandon", "abandon", "abandon", "abandon", "abandon",
            "abandon", "about"] := by decide

/-! ## Claim C1: cross-path checksum equivalence (refuted) -/

/-- Claim C1 as stated is FALSE: at the golden-vector payload
`0x00‖(20 zero bytes)`, the checksum of the CPU path
(`BitcoinUtils.generate_checksum`, first 4 bytes of a padded double
SHA-256) and the first 4 bytes of the accelerator digest
(`GPUHasher.sha256_batch_digest`, via the `sha256_batch` kernel on the
same payload) are not byte-identical. -/
theorem C1_cross_path_counterexample :
    (GPUHasher.sha256_batch_digest WalletScanner.goldenPayload).take 4 ≠
      BitcoinUtils.generate_checksum WalletScanner.goldenPayload := by decide

/-- Claim C1, amended: the two hashing paths are NOT observably
equivalent.  The accelerator path computes a SINGLE, padding-free
SHA-256 compression of the payload zero-padded to the fixed 64-byte
input length, using the kernel's 62-entry (zero-filled) constant table,
while the CPU path takes the first 4 bytes of a standard double SHA-256;
at the golden-vector payload the CPU checksum is `94 a0 09 11` while the
accelerator digest starts `6b c6 08 e9`. -/
theorem C1_cross_path_divergence :
    BitcoinUtils.generate_checksum WalletScanner.goldenPayload =
      [148, 160, 9, 17] ∧
    (GPUHasher.sha256_batch_digest WalletScanner.goldenPayload).take 4 =
      [107, 198, 8, 233] ∧
    GPUHasher.sha256_batch_digest WalletScanner.goldenPayload =
      ((Sha256.compressWith GPUHasher.KERNEL_K Sha256.IV
          (WalletScanner.goldenPayload ++ List.replicate 43 0)).map
        (Sha256.toBytesBE 4)).flatten := by
  refine ⟨by decide, by decide, by decide⟩

/-! ## Claim C2: address derivation definition (confirmed) -/

/-- Claim C2: for every version byte string and payload,
`base58_encode_with_checksum(version, payload)` equals the base58
encoding of `version‖payload‖checksum` with the checksum the first 4
bytes of `SHA256(SHA256(version‖payload))` (`addressSpec` is that
construction spelled out from the specification's words); and on the
golden vector (version `0x00`, payload the first 20 bytes of a 32-zero
entropy) the output is the classic all-zero-hash address with checksum
`94 a0 09 11`. -/
theorem C2_address_derivation :
    (∀ version payload : List Nat,
        BitcoinUtils.base58_encode_with_checksum version payload =
          addressSpec version payload) ∧
    BitcoinUtils.base58_encode_with_checksum [0] (List.replicate 20 0) =
      "1111111111111111111114oLvT2" ∧
    BitcoinUtils.generate_checksum (0 :: List.replicate 20 0) =
      [148, 160, 9, 17] := by
  refine ⟨fun version payload => ?_, by decide, by decide⟩
  simp [BitcoinUtils.base58_encode_with_checksum, addressSpec,
        BitcoinUtils.generate_checksum, List.append_assoc]

/-! ## Claim C10: candidate-generation totality (refuted: code bug) -/

/-- Claim C10 is refuted by the code: `BIP39_WORDS` holds only 20 words
while 11-bit segments index up to 2047, so `entropy_to_words` (and with
it `generate_seed_phrase(12)`) raises `IndexError` on the 16-byte
all-`0xFF` entropy — a producible output of `generate_entropy` — whose
very first segment is 2047.  The source's own comment says a real
implementation must include all 2048 words, so the code, not the claim,
is wrong. -/
theorem C10_wordlist_truncation :
    WalletGenerator.entropy_to_words (List.replicate 16 255) = none ∧
    WalletGenerator.generate_seed_phrase 12 (List.replicate 16 255) = none ∧
    WalletGenerator.BIP39_WORDS.length = 20 ∧
    WalletGenerator.entropy_bits 12 / 8 = 16 := by
  refine ⟨by decide, by decide, by decide, by decide⟩

/-! ## Claim C9: invalid-configuration atomicity (confirmed) -/

/-- Claim C9: for every thread count below 1, `set_thread_count` raises
`ValueError` synchronously (before the lock is even taken) and the
scanner state is exactly as it was — no field changes. -/
theorem C9_invalid_thread_count_atomic (os : OsKind) (cpuCount : Nat)
    (nodeOk : Bool) (st : WalletScanner.ScannerState) (count : Int)
    (h : count < 1) :
    WalletScanner.set_thread_count os cpuCount nodeOk st count =
      .raised st (.valueError "Thread count must be at least 1") := by
  simp [WalletScanner.set_thread_count, h]

/-- Witness for C9 at thread count 0 on a running scanner. -/
theorem C9_invalid_thread_count_atomic_witness :
    WalletScanner.set_thread_count .windows 8 true WalletScanner.runningState 0 =
      .raised WalletScanner.runningState
        (.valueError "Thread count must be at least 1") :=
  C9_invalid_thread_count_atomic .windows 8 true WalletScanner.runningState 0
    (by decide)

/-! ## Helper lemmas about the scanner embedding -/

namespace WalletScanner

theorem stop_scan_scanning (st : ScannerState) :
    (stop_scan st).scanning = false := by
  unfold stop_scan
  split <;> simp_all

theorem stop_scan_counters (st : ScannerState) :
    (stop_scan st).shared_total = st.shared_total ∧
    (stop_scan st).cpu_processed = st.cpu_processed ∧
    (stop_scan st).gpu_processed = st.gpu_processed := by
  unfold stop_scan
  split <;> simp

/-- `_process_batch` returns either the untouched state (success) or the
stopped state (any exception). -/
theorem process_batch_fst (st : ScannerState) (oracle : Oracle)
    (batch : List Candidate) :
    (process_batch st oracle batch).1 = st ∨
    (process_batch st oracle batch).1 = stop_scan st := by
  unfold process_batch
  split <;> simp

/-- If every candidate carries an address, the address-comprehension of
`_process_batch` succeeds. -/
theorem extract_addresses_ok (l : List Candidate)
    (h : ∀ c ∈ l, c.address.isSome) :
    ∃ as_, extract_addresses l = .ok as_ := by
  induction l with
  | nil => exact ⟨[], rfl⟩
  | cons c rest ih =>
    rcases Option.isSome_iff_exists.mp (h c (List.mem_cons_self c rest)) with ⟨a, ha⟩
    rcases ih (fun d hd => h d (List.mem_cons_of_mem c hd)) with ⟨as_, has⟩
    exact ⟨a :: as_, by simp [extract_addresses, ha, has]⟩

theorem counter_inv_scan_worker_step (st : ScannerState) (oracle : Oracle)
    (batch : List Candidate) (h : counter_inv st) :
    counter_inv (scan_worker_step st oracle batch).1 := by
  unfold scan_worker_step process_batch_cpu
  rcases hpb : process_batch st oracle (batch.take CPU_BATCH_SIZE) with ⟨st1, r⟩
  have hst1 : st1 = st ∨ st1 = stop_scan st := by
    have hf := process_batch_fst st oracle (batch.take CPU_BATCH_SIZE)
    rw [hpb] at hf
    exact hf
  obtain ⟨hc1, hc2, hc3⟩ :
      st1.shared_total = st.shared_total ∧
      st1.cpu_processed = st.cpu_processed ∧
      st1.gpu_processed = st.gpu_processed := by
    rcases hst1 with rfl | rfl
    · exact ⟨rfl, rfl, rfl⟩
    · exact stop_scan_counters st
  unfold counter_inv at h ⊢
  rcases r with e | results <;> dsimp only <;> omega

theorem counter_inv_gpu_scan_worker_step (st : ScannerState) (oracle : Oracle)
    (batch : List Candidate) (h : counter_inv st) :
    counter_inv (gpu_scan_worker_step st oracle batch).1 := by
  unfold gpu_scan_worker_step process_batch_gpu
  rcases hpb : process_batch st oracle batch with ⟨st1, r⟩
  have hst1 : st1 = st ∨ st1 = stop_scan st := by
    have hf := process_batch_fst st oracle batch
    rw [hpb] at hf
    exact hf
  obtain ⟨hc1, hc2, hc3⟩ :
      st1.shared_total = st.shared_total ∧
      st1.cpu_processed = st.cpu_processed ∧
      st1.gpu_processed = st.gpu_processed := by
    rcases hst1 with rfl | rfl
    · exact ⟨rfl, rfl, rfl⟩
    · exact stop_scan_counters st
  unfold counter_inv at h ⊢
  rcases r with e | results <;> dsimp only <;> omega

theorem counter_inv_scan_op (st : ScannerState) (op : ScanOp)
    (h : counter_inv st) : counter_inv (scan_op_apply st op) := by
  cases op with
  | cpuStep oracle batch => exact counter_inv_scan_worker_step st oracle batch h
  | gpuStep oracle batch => exact counter_inv_gpu_scan_worker_step st oracle batch h
  | stop =>
    have hc := stop_scan_counters st
    unfold counter_inv at *
    simp only [scan_op_apply]
    omega
  | reset =>
    unfold counter_inv
    simp [scan_op_apply, reset_statistics]

theorem generator_step_length_le (mk : Nat → Candidate) (st : ScannerState)
    (h : st.wallet_queue.length ≤ queue_maxsize) :
    (generator_step mk st).wallet_queue.length ≤ queue_maxsize := by
  unfold generator_step
  by_cases hs : (!st.scanning) = true
  · simpa only [if_pos hs] using h
  · rw [if_neg hs]
    by_cases hguard : st.wallet_queue.length * 10 < queue_maxsize * 7
    · rw [if_pos hguard]
      dsimp only
      split
      · exact h
      · simp only [List.length_append, List.length_cons, List.length_nil]
        unfold queue_maxsize at hguard ⊢
        omega
    · simpa only [if_neg hguard] using h

theorem generator_step_enqueue_guard (mk : Nat → Candidate)
    (st : ScannerState)
    (h : (generator_step mk st).wallet_queue ≠ st.wallet_queue) :
    st.wallet_queue.length * 10 < queue_maxsize * 7 := by
  by_contra hge
  apply h
  unfold generator_step
  by_cases hs : (!st.scanning) = true
  · rw [if_pos hs]
  · rw [if_neg hs, if_neg hge]

theorem queue_op_length_le (st : ScannerState) (op : QueueOp)
    (h : st.wallet_queue.length ≤ queue_maxsize) :
    (queue_op_apply st op).wallet_queue.length ≤ queue_maxsize := by
  cases op with
  | genStep mk => exact generator_step_length_le mk st h
  | dequeueBatch =>
    simp only [queue_op_apply]
    have : st.wallet_queue.tail.length = st.wallet_queue.length - 1 :=
      List.length_tail st.wallet_queue
    omega

theorem foldl_queue_op_length_le (ops : List QueueOp) (st : ScannerState)
    (h : st.wallet_queue.length ≤ queue_maxsize) :
    (ops.foldl queue_op_apply st).wallet_queue.length ≤ queue_maxsize := by
  induction ops generalizing st with
  | nil => exact h
  | cons op rest ih => exact ih _ (queue_op_length_le st op h)

/-- Against the healthy zero-balance oracle, the verification loop of a
fully addressed batch succeeds with no hits. -/
theorem verify_batch_loop_stub (info : NodeInfo) (l : List Candidate)
    (h : ∀ c ∈ l, c.address.isSome) :
    verify_batch_loop stubOracle false info l = .ok [] := by
  induction l with
  | nil => rfl
  | cons c rest ih =>
    rcases Option.isSome_iff_exists.mp (h c (List.mem_cons_self c rest)) with ⟨a, ha⟩
    have hr := ih fun d hd => h d (List.mem_cons_of_mem c hd)
    have hv : verify_wallet stubOracle false a = .ok 0 := rfl
    simp [verify_batch_loop, ha, hr, hv]

/-- `_process_batch` of a fully addressed batch against the healthy
zero-balance oracle succeeds, leaving the state untouched. -/
theorem process_batch_stub_ok (st : ScannerState)
    (hsim : st.simulation_mode = false) (l : List Candidate)
    (h : ∀ c ∈ l, c.address.isSome) :
    process_batch st stubOracle l = (st, .ok []) := by
  rcases extract_addresses_ok l h with ⟨as_, has⟩
  have hloop := verify_batch_loop_stub mainNetInfo l h
  have hnode : stubOracle.verifyLiveNode = .ok () := rfl
  have hinfo : stubOracle.getNodeInfo = .ok mainNetInfo := rfl
  have hcore : process_batch_core stubOracle st.simulation_mode l = .ok [] := by
    simp [process_batch_core, hsim, hnode, get_node_info, hinfo, has, hloop]
  simp [process_batch, hcore]

theorem bigBatch_addresses : ∀ c ∈ bigBatch, c.address.isSome := by
  intro c hc
  unfold bigBatch at hc
  have hce := List.eq_of_mem_replicate hc
  subst hce
  rfl

/-- Counter effect of one successful CPU batch completion on `bigBatch`:
`cpu_processed` and `shared_total` grow by 1000 in their wrapped 32-bit
stores, the GPU counter and the mode are untouched. -/
theorem scan_worker_step_stub (st : ScannerState)
    (hsim : st.simulation_mode = false) :
    (scan_worker_step st stubOracle bigBatch).1.cpu_processed =
        (st.cpu_processed + 1000) % 4294967296 ∧
    (scan_worker_step st stubOracle bigBatch).1.shared_total =
        (st.shared_total + 1000) % 4294967296 ∧
    (scan_worker_step st stubOracle bigBatch).1.gpu_processed =
        st.gpu_processed ∧
    (scan_worker_step st stubOracle bigBatch).1.simulation_mode = false := by
  have htake : bigBatch.take CPU_BATCH_SIZE = bigBatch :=
    List.take_of_length_le (by simp [bigBatch, CPU_BATCH_SIZE])
  have hpb := process_batch_stub_ok st hsim bigBatch bigBatch_addresses
  have hlen : bigBatch.length = 1000 := by simp [bigBatch]
  simp [scan_worker_step, process_batch_cpu, htake, hpb, hlen, hsim]

/-- Counter effect of one successful GPU batch completion on `bigBatch`. -/
theorem gpu_scan_worker_step_stub (st : ScannerState)
    (hsim : st.simulation_mode = false) :
    (gpu_scan_worker_step st stubOracle bigBatch).1.gpu_processed =
        (st.gpu_processed + 1000) % 4294967296 ∧
    (gpu_scan_worker_step st stubOracle bigBatch).1.shared_total =
        (st.shared_total + 1000) % 4294967296 ∧
    (gpu_scan_worker_step st stubOracle bigBatch).1.cpu_processed =
        st.cpu_processed ∧
    (gpu_scan_worker_step st stubOracle bigBatch).1.simulation_mode = false := by
  have hpb := process_batch_stub_ok st hsim bigBatch bigBatch_addresses
  have hlen : bigBatch.length = 1000 := by simp [bigBatch]
  simp [gpu_scan_worker_step, process_batch_gpu, hpb, hlen, hsim]

/-- Cumulative counter effect of `n` successful CPU batch completions:
the wrapped stores accumulate `1000 * n` modulo `2 ^ 32`. -/
theorem cpu_phase (n : Nat) (st : ScannerState)
    (hsim : st.simulation_mode = false)
    (hcpu : st.cpu_processed < 4294967296)
    (htot : st.shared_total < 4294967296) :
    ((List.replicate n (ScanOp.cpuStep stubOracle bigBatch)).foldl
        scan_op_apply st).cpu_processed =
      (st.cpu_processed + 1000 * n) % 4294967296 ∧
    ((List.replicate n (ScanOp.cpuStep stubOracle bigBatch)).foldl
        scan_op_apply st).shared_total =
      (st.shared_total + 1000 * n) % 4294967296 ∧
    ((List.replicate n (ScanOp.cpuStep stubOracle bigBatch)).foldl
        scan_op_apply st).gpu_processed = st.gpu_processed ∧
    ((List.replicate n (ScanOp.cpuStep stubOracle bigBatch)).foldl
        scan_op_apply st).simulation_mode = false := by
  induction n generalizing st with
  | zero =>
    simpa using ⟨Nat.mod_eq_of_lt hcpu |>.symm, Nat.mod_eq_of_lt htot |>.symm, hsim⟩
  | succ n ih =>
    obtain ⟨h1, h2, h3, h4⟩ := scan_worker_step_stub st hsim
    have hst : scan_op_apply st (ScanOp.cpuStep stubOracle bigBatch) =
        (scan_worker_step st stubOracle bigBatch).1 := rfl
    obtain ⟨i1, i2, i3, i4⟩ :=
      ih (scan_op_apply st (ScanOp.cpuStep stubOracle bigBatch))
        (by rw [hst]; exact h4)
        (by rw [hst, h1]; exact Nat.mod_lt _ (by norm_num))
        (by rw [hst, h2]; exact Nat.mod_lt _ (by norm_num))
    rw [List.replicate_succ]
    simp only [List.foldl_cons]
    refine ⟨?_, ?_, ?_, i4⟩
    · rw [i1, hst, h1]
      omega
    · rw [i2, hst, h2]
      omega
    · rw [i3, hst, h3]

/-- Cumulative counter effect of `n` successful GPU batch completions. -/
theorem gpu_phase (n : Nat) (st : ScannerState)
    (hsim : st.simulation_mode = false)
    (hgpu : st.gpu_processed < 4294967296)
    (htot : st.shared_total < 4294967296) :
    ((List.replicate n (ScanOp.gpuStep stubOracle bigBatch)).foldl
        scan_op_apply st).gpu_processed =
      (st.gpu_processed + 1000 * n) % 4294967296 ∧
    ((List.replicate n (ScanOp.gpuStep stubOracle bigBatch)).foldl
        scan_op_apply st).shared_total =
      (st.shared_total + 1000 * n) % 4294967296 ∧
    ((List.replicate n (ScanOp.gpuStep stubOracle bigBatch)).foldl
        scan_op_apply st).cpu_processed = st.cpu_processed ∧
    ((List.replicate n (ScanOp.gpuStep stubOracle bigBatch)).foldl
        scan_op_apply st).simulation_mode = false := by
  induction n generalizing st with
  | zero =>
    simpa using ⟨Nat.mod_eq_of_lt hgpu |>.symm, Nat.mod_eq_of_lt htot |>.symm, hsim⟩
  | succ n ih =>
    obtain ⟨h1, h2, h3, h4⟩ := gpu_scan_worker_step_stub st hsim
    have hst : scan_op_apply st (ScanOp.gpuStep stubOracle bigBatch) =
        (gpu_scan_worker_step st stubOracle bigBatch).1 := rfl
    obtain ⟨i1, i2, i3, i4⟩ :=
      ih (scan_op_apply st (ScanOp.gpuStep stubOracle bigBatch))
        (by rw [hst]; exact h4)
        (by rw [hst, h1]; exact Nat.mod_lt _ (by norm_num))
        (by rw [hst, h2]; exact Nat.mod_lt _ (by norm_num))
    rw [List.replicate_succ]
    simp only [List.foldl_cons]
    refine ⟨?_, ?_, ?_, i4⟩
    · rw [i1, hst, h1]
      omega
    · rw [i2, hst, h2]
      omega
    · rw [i3, hst, h3]

end WalletScanner

/-! ## Claim C3: oracle-failure fail-closed (confirmed) -/

/-- Claim C3: for a batch reaching the oracle (live mode, reachable node,
candidates carrying addresses), if `verify_wallet` raises a connectivity
error then `_process_batch` propagates that very error out of the call
AND the whole session is stopped (`scanning` is `false` via `stop_scan`)
— the failure is not contained to the failing candidate. -/
theorem C3_oracle_failure_fail_closed
    (st : WalletScanner.ScannerState) (oracle : Oracle)
    (batch : List Candidate) (e : ScanError) (info : NodeInfo)
    (hsim : st.simulation_mode = false)
    (hnode : oracle.verifyLiveNode = .ok ())
    (hinfo : oracle.getNodeInfo = .ok info)
    (haddr : ∀ c ∈ batch, c.address.isSome)
    (hne : batch ≠ [])
    (hfail : ∀ a, oracle.verifyWallet a = .error e) :
    (WalletScanner.process_batch st oracle batch).2 = .error e ∧
    (WalletScanner.process_batch st oracle batch).1.scanning = false := by
  rcases batch with _ | ⟨c, rest⟩
  · exact absurd rfl hne
  rcases Option.isSome_iff_exists.mp (haddr c (List.mem_cons_self c rest)) with ⟨a, ha⟩
  rcases WalletScanner.extract_addresses_ok rest
      (fun d hd => haddr d (List.mem_cons_of_mem c hd)) with ⟨as_, has⟩
  have hcore : WalletScanner.process_batch_core oracle st.simulation_mode
      (c :: rest) = .error e := by
    simp [WalletScanner.process_batch_core, hsim, hnode,
          WalletScanner.get_node_info, hinfo, WalletScanner.extract_addresses,
          ha, has, WalletScanner.verify_batch_loop,
          WalletScanner.verify_wallet, hfail a]
  simp [WalletScanner.process_batch, hcore, WalletScanner.stop_scan_scanning]

/-- Witness for C3: a one-candidate batch with an address, against an
oracle whose wallet verification always raises. -/
theorem C3_oracle_failure_fail_closed_witness :
    (WalletScanner.process_batch WalletScanner.runningState
        WalletScanner.downOracle [WalletScanner.addrCandidate]).2 =
      .error (.connectivity "node unreachable") ∧
    (WalletScanner.process_batch WalletScanner.runningState
        WalletScanner.downOracle [WalletScanner.addrCandidate]).1.scanning =
      false :=
  C3_oracle_failure_fail_closed WalletScanner.runningState
    WalletScanner.downOracle [WalletScanner.addrCandidate]
    (.connectivity "node unreachable") WalletScanner.mainNetInfo
    rfl rfl rfl (by decide) (by decide) (fun _ => rfl)

/-! ## Claim C4: counter-consistency invariant (refuted: c_int wrap) -/

/-- Claim C4 as stated is FALSE on the code: the shared counters are
32-bit ctypes `c_int`s that wrap silently, so after `wrapBatches`
(1,073,742) completed 1000-candidate CPU batches and as many GPU
batches — a sequence of ordinary worker batch-completions from a fresh
scanner — the `.value` reads give `shared_total = -2147483296` while
`cpu_processed + gpu_processed = 1073742000 + 1073742000 = 2147484000`:
the total's store wrapped past `2 ^ 31` but the Python sum of the two
still-positive per-device reads did not. -/
theorem C4_counter_wrap_counterexample :
    ¬ (WalletScanner.c_int_signed
          ((WalletScanner.wrapOps.foldl WalletScanner.scan_op_apply
              (WalletScanner.initial_state 4)).shared_total) =
        WalletScanner.c_int_signed
          ((WalletScanner.wrapOps.foldl WalletScanner.scan_op_apply
              (WalletScanner.initial_state 4)).cpu_processed) +
        WalletScanner.c_int_signed
          ((WalletScanner.wrapOps.foldl WalletScanner.scan_op_apply
              (WalletScanner.initial_state 4)).gpu_processed)) := by
  have hsplit : WalletScanner.wrapOps.foldl WalletScanner.scan_op_apply
      (WalletScanner.initial_state 4) =
      (List.replicate WalletScanner.wrapBatches
          (WalletScanner.ScanOp.gpuStep WalletScanner.stubOracle
            WalletScanner.bigBatch)).foldl WalletScanner.scan_op_apply
        ((List.replicate WalletScanner.wrapBatches
            (WalletScanner.ScanOp.cpuStep WalletScanner.stubOracle
              WalletScanner.bigBatch)).foldl WalletScanner.scan_op_apply
          (WalletScanner.initial_state 4)) := by
    rw [WalletScanner.wrapOps, List.foldl_append]
  obtain ⟨c1, c2, c3, c4⟩ :=
    WalletScanner.cpu_phase WalletScanner.wrapBatches
      (WalletScanner.initial_state 4) rfl (by decide) (by decide)
  obtain ⟨g1, g2, g3, g4⟩ :=
    WalletScanner.gpu_phase WalletScanner.wrapBatches
      ((List.replicate WalletScanner.wrapBatches
          (WalletScanner.ScanOp.cpuStep WalletScanner.stubOracle
            WalletScanner.bigBatch)).foldl WalletScanner.scan_op_apply
        (WalletScanner.initial_state 4))
      c4 (by rw [c3]; decide) (by rw [c2]; exact Nat.mod_lt _ (by norm_num))
  rw [hsplit, g1, g2, g3, c1, c2, c3]
  decide

/-- Claim C4, amended: the invariant the wrapped 32-bit stores actually
maintain is the congruence `shared_total = (cpu_processed +
gpu_processed) % 2 ^ 32`, preserved by every sequence of worker
batch-completions, stops and statistics resets (plain equality of
`.value` reads holds only while no effective wrap has occurred). -/
theorem C4_counter_consistency_mod (ops : List WalletScanner.ScanOp)
    (st : WalletScanner.ScannerState) (h : WalletScanner.counter_inv st) :
    WalletScanner.counter_inv (ops.foldl WalletScanner.scan_op_apply st) := by
  induction ops generalizing st with
  | nil => exact h
  | cons op rest ih => exact ih _ (WalletScanner.counter_inv_scan_op st op h)

/-- Witness for the amended C4: a CPU batch completion, a GPU batch
completion and a reset, starting from a fresh scanner. -/
theorem C4_counter_consistency_mod_witness :
    WalletScanner.counter_inv
      (List.foldl WalletScanner.scan_op_apply (WalletScanner.initial_state 4)
        [WalletScanner.ScanOp.cpuStep WalletScanner.stubOracle
            [WalletScanner.addrCandidate],
         WalletScanner.ScanOp.gpuStep WalletScanner.stubOracle
            [WalletScanner.addrCandidate],
         WalletScanner.ScanOp.reset]) :=
  C4_counter_consistency_mod _ (WalletScanner.initial_state 4) rfl

/-! ## Claim C5: complete batch verification (refuted: code bug) -/

/-- Claim C5 is refuted by the code: the generator's candidates carry no
`address` key, so on the very first dequeued batch the CPU worker's
`_process_batch` raises `KeyError('address')` before verifying a single
candidate, `stop_scan` halts the session, and `cpu_processed` is not
incremented at all (instead of by the batch size the claim requires). -/
theorem C5_missing_address_key
    (st : WalletScanner.ScannerState) (oracle : Oracle) (info : NodeInfo)
    (hsim : st.simulation_mode = false)
    (hnode : oracle.verifyLiveNode = .ok ())
    (hinfo : oracle.getNodeInfo = .ok info) :
    WalletScanner.scan_worker_step st oracle [WalletScanner.genCandidate] =
      (WalletScanner.stop_scan st, []) ∧
    (WalletScanner.process_batch st oracle
        [WalletScanner.genCandidate]).2 = .error (.keyError "address") ∧
    (WalletScanner.scan_worker_step st oracle
        [WalletScanner.genCandidate]).1.cpu_processed = st.cpu_processed ∧
    (WalletScanner.scan_worker_step st oracle
        [WalletScanner.genCandidate]).1.scanning = false := by
  have htake : List.take WalletScanner.CPU_BATCH_SIZE
      [WalletScanner.genCandidate] = [WalletScanner.genCandidate] := by decide
  have hcore : WalletScanner.process_batch_core oracle st.simulation_mode
      [WalletScanner.genCandidate] = .error (.keyError "address") := by
    simp [WalletScanner.process_batch_core, hsim, hnode,
          WalletScanner.get_node_info, hinfo, WalletScanner.extract_addresses,
          WalletScanner.genCandidate]
  have hpb : WalletScanner.process_batch st oracle
      [WalletScanner.genCandidate] =
      (WalletScanner.stop_scan st, .error (.keyError "address")) := by
    simp [WalletScanner.process_batch, hcore]
  have hstep : WalletScanner.scan_worker_step st oracle
      [WalletScanner.genCandidate] = (WalletScanner.stop_scan st, []) := by
    simp [WalletScanner.scan_worker_step, WalletScanner.process_batch_cpu,
          htake, hpb]
  refine ⟨hstep, by simp [hpb], ?_, ?_⟩
  · rw [hstep]
    exact (WalletScanner.stop_scan_counters st).2.1
  · rw [hstep]
    exact WalletScanner.stop_scan_scanning st

/-- Witness for C5: the failing input evaluated concretely — a live
session, a healthy zero-balance oracle and the first generator batch. -/
theorem C5_missing_address_key_witness :
    WalletScanner.scan_worker_step WalletScanner.runningState
        WalletScanner.stubOracle [WalletScanner.genCandidate] =
      (WalletScanner.stop_scan WalletScanner.runningState, []) ∧
    (WalletScanner.process_batch WalletScanner.runningState
        WalletScanner.stubOracle [WalletScanner.genCandidate]).2 =
      .error (.keyError "address") ∧
    (WalletScanner.scan_worker_step WalletScanner.runningState
        WalletScanner.stubOracle [WalletScanner.genCandidate]).1.cpu_processed =
      WalletScanner.runningState.cpu_processed ∧
    (WalletScanner.scan_worker_step WalletScanner.runningState
        WalletScanner.stubOracle [WalletScanner.genCandidate]).1.scanning =
      false :=
  C5_missing_address_key WalletScanner.runningState WalletScanner.stubOracle
    WalletScanner.mainNetInfo rfl rfl rfl

/-! ## Claim C6: accelerator-fault fallback (refuted: code bug) -/

/-- Claim C6 is refuted by the code: the GPU worker's batch path
(`_process_batch_gpu`) is definitionally the CPU `_process_batch` and
never invokes the accelerator's `compute_hash_batch`, so there is no
per-batch CPU fallback to produce hits; an always-raising accelerator is
simply never consulted, and on the first generator batch the GPU worker
hits the missing-address `KeyError`, stops the session, produces no
hits, and leaves both `cpu_processed` and `gpu_processed` unchanged
(the claim requires hits and a growing `cpu_processed`). -/
theorem C6_gpu_path_never_calls_accelerator
    (st : WalletScanner.ScannerState) (oracle : Oracle) (info : NodeInfo)
    (hsim : st.simulation_mode = false)
    (hnode : oracle.verifyLiveNode = .ok ())
    (hinfo : oracle.getNodeInfo = .ok info) :
    (∀ (st2 : WalletScanner.ScannerState) (o2 : Oracle)
        (b2 : List Candidate),
        WalletScanner.process_batch_gpu st2 o2 b2 =
          WalletScanner.process_batch st2 o2 b2) ∧
    WalletScanner.gpu_scan_worker_step st oracle [WalletScanner.genCandidate] =
      (WalletScanner.stop_scan st, []) ∧
    (WalletScanner.gpu_scan_worker_step st oracle
        [WalletScanner.genCandidate]).1.cpu_processed = st.cpu_processed ∧
    (WalletScanner.gpu_scan_worker_step st oracle
        [WalletScanner.genCandidate]).1.gpu_processed = st.gpu_processed ∧
    (WalletScanner.gpu_scan_worker_step st oracle
        [WalletScanner.genCandidate]).1.scanning = false := by
  have hcore : WalletScanner.process_batch_core oracle st.simulation_mode
      [WalletScanner.genCandidate] = .error (.keyError "address") := by
    simp [WalletScanner.process_batch_core, hsim, hnode,
          WalletScanner.get_node_info, hinfo, WalletScanner.extract_addresses,
          WalletScanner.genCandidate]
  have hstep : WalletScanner.gpu_scan_worker_step st oracle
      [WalletScanner.genCandidate] = (WalletScanner.stop_scan st, []) := by
    simp [WalletScanner.gpu_scan_worker_step, WalletScanner.process_batch_gpu,
          WalletScanner.process_batch, hcore]
  refine ⟨fun _ _ _ => rfl, hstep, ?_, ?_, ?_⟩
  · rw [hstep]
    exact (WalletScanner.stop_scan_counters st).2.1
  · rw [hstep]
    exact (WalletScanner.stop_scan_counters st).2.2
  · rw [hstep]
    exact WalletScanner.stop_scan_scanning st

/-- Witness for C6 at a live session and a healthy oracle. -/
theorem C6_gpu_path_never_calls_accelerator_witness :
    (∀ (st2 : WalletScanner.ScannerState) (o2 : Oracle)
        (b2 : List Candidate),
        WalletScanner.process_batch_gpu st2 o2 b2 =
          WalletScanner.process_batch st2 o2 b2) ∧
    WalletScanner.gpu_scan_worker_step WalletScanner.runningState
        WalletScanner.stubOracle [WalletScanner.genCandidate] =
      (WalletScanner.stop_scan WalletScanner.runningState, []) ∧
    (WalletScanner.gpu_scan_worker_step WalletScanner.runningState
        WalletScanner.stubOracle [WalletScanner.genCandidate]).1.cpu_processed =
      WalletScanner.runningState.cpu_processed ∧
    (WalletScanner.gpu_scan_worker_step WalletScanner.runningState
        WalletScanner.stubOracle [WalletScanner.genCandidate]).1.gpu_processed =
      WalletScanner.runningState.gpu_processed ∧
    (WalletScanner.gpu_scan_worker_step WalletScanner.runningState
        WalletScanner.stubOracle [WalletScanner.genCandidate]).1.scanning =
      false :=
  C6_gpu_path_never_calls_accelerator WalletScanner.runningState
    WalletScanner.stubOracle WalletScanner.mainNetInfo rfl rfl rfl

/-! ## Claim C7: backpressure bound (confirmed) -/

/-- Claim C7: the capacity bound is preserved from EVERY scanner state
(in particular from every running session) by every sequence of
generator iterations and worker dequeues; over every such sequence from
a running session freshly started by `start_scan` — where the generator
really does enqueue — the candidate queue never holds more than its
fixed capacity of `queue_maxsize` batches; and a generator iteration
changes the queue (synthesizes and enqueues a batch) only when occupancy
is strictly below the 70% threshold of capacity — otherwise it leaves
the queue untouched (the sleep-and-re-check branch), never blocking. -/
theorem C7_backpressure_bound :
    (∀ (ops : List WalletScanner.QueueOp) (st : WalletScanner.ScannerState),
        st.wallet_queue.length ≤ WalletScanner.queue_maxsize →
        (ops.foldl WalletScanner.queue_op_apply st).wallet_queue.length ≤
          WalletScanner.queue_maxsize) ∧
    (∀ (ops : List WalletScanner.QueueOp) (os : OsKind)
        (cpuCount : Nat) (simulation_mode : Bool),
        (ops.foldl WalletScanner.queue_op_apply
            (WalletScanner.start_scan os cpuCount true simulation_mode
              (WalletScanner.initial_state cpuCount))).wallet_queue.length ≤
          WalletScanner.queue_maxsize) ∧
    (∀ (mk : Nat → Candidate) (st : WalletScanner.ScannerState),
        (WalletScanner.generator_step mk st).wallet_queue ≠ st.wallet_queue →
        st.wallet_queue.length * 10 < WalletScanner.queue_maxsize * 7) := by
  refine ⟨fun ops st h => WalletScanner.foldl_queue_op_length_le ops st h,
          fun ops os cpuCount simulation_mode => ?_,
          fun mk st h => WalletScanner.generator_step_enqueue_guard mk st h⟩
  apply WalletScanner.foldl_queue_op_length_le
  cases os <;> cases simulation_mode <;>
    simp [WalletScanner.start_scan, WalletScanner.initial_state,
          WalletScanner.reset_statistics, WalletScanner.set_process_priority,
          WalletScanner.stop_scan, WalletScanner.queue_maxsize]

/-- Witness for C7: one generator iteration of a running session (the
state `start_scan` actually produces, where `scanning` is true) really
enqueues a batch and stays within capacity, and the guard applies to
its empty queue. -/
theorem C7_backpressure_bound_witness :
    ([WalletScanner.QueueOp.genStep (fun _ => WalletScanner.genCandidate)].foldl
        WalletScanner.queue_op_apply
        WalletScanner.resizeExampleState).wallet_queue.length ≤
      WalletScanner.queue_maxsize ∧
    ([WalletScanner.QueueOp.genStep (fun _ => WalletScanner.genCandidate)].foldl
        WalletScanner.queue_op_apply
        (WalletScanner.start_scan .posix 16 true false
          (WalletScanner.initial_state 16))).wallet_queue.length ≤
      WalletScanner.queue_maxsize ∧
    WalletScanner.resizeExampleState.wallet_queue.length * 10 <
      WalletScanner.queue_maxsize * 7 :=
  ⟨C7_backpressure_bound.1 _ WalletScanner.resizeExampleState (by decide),
   C7_backpressure_bound.2.1 _ .posix 16 false,
   C7_backpressure_bound.2.2 (fun _ => WalletScanner.genCandidate)
     WalletScanner.resizeExampleState (by decide)⟩

/-! ## Claim C8: resize correctness (refuted) -/

/-- Claim C8 as stated is FALSE: in the §8 scenario (a session started
with 4 CPU threads and 4 scan workers on a 16-CPU POSIX host), calling
`set_thread_count(8)` never completes a resize at all — holding the
non-reentrant `self._lock`, it calls `stop_scan()`, which blocks forever
re-acquiring that same lock.  The call deadlocks with the new thread
count already written, the session still marked scanning, and the
original 4 scan workers untouched — not the 8 active workers the claim
requires. -/
theorem C8_resize_counterexample :
    WalletScanner.set_thread_count .posix 16 true
        WalletScanner.resizeExampleState 8 =
      .deadlocked { WalletScanner.resizeExampleState with
                      cpu_thread_count := 8 } ∧
    ({ WalletScanner.resizeExampleState with
        cpu_thread_count := 8 } : WalletScanner.ScannerState).scan_workers
      ≠ 8 := by
  refine ⟨by decide, by decide⟩

/-- Claim C8, amended: `set_thread_count(8)` on a running session never
completes the stop/restart cycle — it DEADLOCKS: the method holds the
non-reentrant `self._lock` when it calls `stop_scan()`, whose first
statement re-acquires that same lock.  The blocked call leaves
`cpu_thread_count` already clamped to `min(8, cpu_count)`, the session
still marked scanning, and the worker set exactly as it was — no set of
8 CPU verifier workers (or any other resized set) ever becomes active. -/
theorem C8_resize_deadlock (os : OsKind) (cpuCount : Nat) (nodeOk : Bool)
    (st : WalletScanner.ScannerState) (h : st.scanning = true) :
    ∃ st2, WalletScanner.set_thread_count os cpuCount nodeOk st 8 =
        .deadlocked st2 ∧
      st2.cpu_thread_count = min 8 cpuCount ∧
      st2.scanning = true ∧
      st2.scan_workers = st.scan_workers ∧
      st2.generator_workers = st.generator_workers := by
  have h8 : ¬((8 : Int) < 1) := by decide
  have ht : (8 : Int).toNat = 8 := rfl
  by_cases hg : (st.gpu_enabled && st.gpu_hasher) = true
  · have hcall : WalletScanner.set_thread_count os cpuCount nodeOk st 8 =
        WalletScanner.LockedCall.deadlocked
          { st with cpu_thread_count := min 8 cpuCount, gpu_thread_count := min (8 * 64) 1024 } := by
      simp [WalletScanner.set_thread_count, h8, ht, hg, h]
    exact ⟨_, hcall, rfl, h, rfl, rfl⟩
  · have hcall : WalletScanner.set_thread_count os cpuCount nodeOk st 8 =
        WalletScanner.LockedCall.deadlocked
          { st with cpu_thread_count := min 8 cpuCount } := by
      simp [WalletScanner.set_thread_count, h8, ht, hg, h]
    exact ⟨_, hcall, rfl, h, rfl, rfl⟩

/-- Witness for the amended C8 in the §8 scenario itself. -/
theorem C8_resize_deadlock_witness :
    ∃ st2, WalletScanner.set_thread_count .posix 16 true
        WalletScanner.resizeExampleState 8 = .deadlocked st2 ∧
      st2.cpu_thread_count = min 8 16 ∧
      st2.scanning = true ∧
      st2.scan_workers = WalletScanner.resizeExampleState.scan_workers ∧
      st2.generator_workers =
        WalletScanner.resizeExampleState.generator_workers :=
  C8_resize_deadlock .posix 16 true WalletScanner.resizeExampleState (by decide)
